import Mathlib

/-!
Shallow embedding of the call-log change-detection and classification
pipeline of the My-Call-Detector-App repository, together with proofs of
the specification's claims about it.

Embedded source files:
* `src/utils/CallLogAnalyzer.ts` (`analyzeCallLogEntry`)
* `hooks/types.ts` (`CallLogEntry`, `AnalyzedCall`)
* `src/hooks/useCallLogMonitor.ts` (`processCallLogEntry`, the
  JS-side deduplicating delivery handler)
* `android/.../CallLogMonitorService.kt` (cursor seeding, the recurring
  `TimerTask.run` poll tick, `onDestroy`)
* `android/.../CallLogModule.kt` (`addListener`, `removeListeners`) and
  `src/CallLogModule.ts` (`subscribeToCallUpdates` and its unsubscribe
  closure)
-/

namespace MyCallDetector

/-- `CallLogEntry` from `hooks/types.ts`: the raw call-log record shape
delivered by the native module (`number`, `type`, `duration`,
`timestamp`).  The same field shape is used by the Kotlin service's
`CallLogHelper.getLastCall` result and by the `CALL_LOG_UPDATE` broadcast
extras, so one structure serves all three roles. -/
structure CallLogEntry where
  number : String
  type : Int
  duration : Int
  timestamp : Int
deriving Repr, DecidableEq

/-- The `AnalyzedCall['type']` union from `hooks/types.ts`:
`'incoming' | 'outgoing' | 'missed' | 'rejected' | 'unknown'`. -/
inductive CallType where
  | incoming
  | outgoing
  | missed
  | rejected
  | unknown
deriving Repr, DecidableEq

/-- `AnalyzedCall` from `hooks/types.ts`. -/
structure AnalyzedCall where
  type : CallType
  number : String
  duration : Int
  timestamp : Int
deriving Repr, DecidableEq

/-- `analyzeCallLogEntry` from `src/utils/CallLogAnalyzer.ts`.  The
declared TS return type is `AnalyzedCall | null`, embedded as `Option`;
the function body has a single `return` of an object literal, so the
`none` branch never occurs.  The `switch (entry.type)` is embedded as the
corresponding if-chain; the pure function has no side effects. -/
def analyzeCallLogEntry (entry : CallLogEntry) : Option AnalyzedCall :=
  let type : CallType :=
    if entry.type = 1 then
      (if entry.duration > 0 then .incoming else .missed)
    else if entry.type = 2 then .outgoing
    else if entry.type = 3 then .missed
    else if entry.type = 5 then .rejected
    else .unknown
  some { type := type
         number := entry.number
         duration := entry.duration
         timestamp := entry.timestamp }

/-- Spec-side classification mapping, written from the words of §4.1 of
the specification (for the refinement claim about the classifier): code 1
yields Incoming when the duration is positive and Missed otherwise, code 2
yields Outgoing, code 3 Missed, code 5 Rejected, and every other integer
code yields Unknown. -/
def classifySpec (rawTypeCode durationSeconds : Int) : CallType :=
  if rawTypeCode = 1 then
    (if durationSeconds > 0 then .incoming else .missed)
  else if rawTypeCode = 2 then .outgoing
  else if rawTypeCode = 3 then .missed
  else if rawTypeCode = 5 then .rejected
  else .unknown

/-- The untyped event object handed to the JS handler by the native
event emitter.  `processCallLogEntry` in `src/hooks/useCallLogMonitor.ts`
checks `typeof entry.number !== 'string'` (and likewise for the numeric
fields) before using the entry; a field is `some v` when it is present
with the checked runtime type and `none` otherwise. -/
structure RawEvent where
  number : Option String
  type : Option Int
  duration : Option Int
  timestamp : Option Int
deriving Repr, DecidableEq

/-- `processCallLogEntry` from `src/hooks/useCallLogMonitor.ts`.  State is
the `previousLogs` ref (the delivered-identity record); the second
component of the result is the `AnalyzedCall` passed to `onCallDetected`,
or `none` when no handler is invoked.  Mirrors the source order: malformed
entries are warned about and dropped; an entry whose `(timestamp, number)`
pair already occurs in `previousLogs` is ignored; otherwise the entry is
analyzed, delivered, and appended to `previousLogs`. -/
def processCallLogEntry (previousLogs : List CallLogEntry) (entry : RawEvent) :
    List CallLogEntry × Option AnalyzedCall :=
  match entry.number, entry.type, entry.duration, entry.timestamp with
  | some n, some t, some d, some ts =>
    let newCallData : CallLogEntry := { number := n, type := t, duration := d, timestamp := ts }
    if previousLogs.any
        (fun log => log.timestamp == newCallData.timestamp && log.number == newCallData.number) then
      (previousLogs, none)
    else
      match analyzeCallLogEntry newCallData with
      | some analyzedResult => (previousLogs ++ [newCallData], some analyzedResult)
      | none => (previousLogs, none)
  | _, _, _, _ => (previousLogs, none)

/-- Folding `processCallLogEntry` over a sequence of native events during
one process lifetime, collecting every `AnalyzedCall` actually delivered
to `onCallDetected`. -/
def processAll (previousLogs : List CallLogEntry) :
    List RawEvent → List CallLogEntry × List AnalyzedCall
  | [] => (previousLogs, [])
  | entry :: rest =>
    ((processAll (processCallLogEntry previousLogs entry).1 rest).1,
      (processCallLogEntry previousLogs entry).2.toList
        ++ (processAll (processCallLogEntry previousLogs entry).1 rest).2)

/-- The identity key `(phoneNumber, occurredAtEpochMillis)` of a raw
call-log entry. -/
def entryKey (e : CallLogEntry) : String × Int :=
  (e.number, e.timestamp)

/-- The identity key `(phoneNumber, occurredAtEpochMillis)` of a
delivered classified call. -/
def callKey (a : AnalyzedCall) : String × Int :=
  (a.number, a.timestamp)

/-- The mutable state of `CallLogMonitorService`
(`android/.../CallLogMonitorService.kt`): the `lastTimestamp` cursor and
whether `timer.cancel()` has been invoked (by `onDestroy`). -/
structure ServiceState where
  lastTimestamp : Int
  timerCancelled : Bool
deriving Repr, DecidableEq

/-- The body of the anonymous `TimerTask.run` scheduled in
`CallLogMonitorService.onCreate`.  The argument `readResult` is the
outcome of `CallLogHelper.getLastCall`: `Except.error` when the read
throws (`SecurityException` or any other exception — both caught and
logged, the tick skipped), `Except.ok none` when the call log is empty,
and `Except.ok (some it)` for the most recent entry.  The second
component of the result is the `CALL_LOG_UPDATE` broadcast sent, if any;
`run` never consults the cancellation state before `sendBroadcast`. -/
def timerTaskRun (s : ServiceState) (readResult : Except Unit (Option CallLogEntry)) :
    ServiceState × Option CallLogEntry :=
  match readResult with
  | .error _ => (s, none)
  | .ok none => (s, none)
  | .ok (some it) =>
    if it.timestamp > s.lastTimestamp then
      ({ s with lastTimestamp := it.timestamp }, some it)
    else
      (s, none)

/-- `CallLogMonitorService.onDestroy`: calls `timer.cancel()` (which
never throws and does not interfere with a currently executing task) and
logs.  Total function: stopping never throws. -/
def onDestroy (s : ServiceState) : ServiceState :=
  { s with timerCancelled := true }

/-- The cursor-seeding step of `CallLogMonitorService.onCreate` in the
current service version (the variant consistent with the manifest's
`FOREGROUND_SERVICE_PHONE_CALL` declaration):
`lastTimestamp = CallLogHelper.getLastCall(this)?.timestamp ?: 0L` inside
a `try`; every catch branch only logs, so on a throwing read the field
keeps its initial value `0L` and `onCreate` proceeds to schedule the
timer. -/
def seedLastTimestamp (readResult : Except Unit (Option CallLogEntry)) : Int :=
  match readResult with
  | .ok latest => (latest.map CallLogEntry.timestamp).getD 0
  | .error _ => 0

/-- The service state right after `onCreate` finishes seeding and
schedules the recurring `TimerTask` (timer not cancelled). -/
def onCreateState (readResult : Except Unit (Option CallLogEntry)) : ServiceState :=
  { lastTimestamp := seedLastTimestamp readResult, timerCancelled := false }

/-- The cursor-seeding step as written in the other
`CallLogMonitorService.kt` variant present in the repository, whose catch
branches rethrow a `RuntimeException`: a failing read aborts `onCreate`
instead of continuing with cursor `0`. -/
def seedLastTimestampStrict (readResult : Except Unit (Option CallLogEntry)) :
    Except Unit Int :=
  match readResult with
  | .ok latest => .ok ((latest.map CallLogEntry.timestamp).getD 0)
  | .error e => .error e

/-- The native-side state of `CallLogModule`
(`android/.../CallLogModule.kt`): the `listenerCount` field and whether
`callLogUpdateReceiver` is currently registered with the context. -/
structure NativeModuleState where
  listenerCount : Int
  receiverRegistered : Bool
deriving Repr, DecidableEq

/-- `CallLogModule.addListener`: registers the broadcast receiver when
`listenerCount == 0`, then increments `listenerCount`. -/
def addListener (s : NativeModuleState) : NativeModuleState :=
  let s1 := if s.listenerCount = 0 then { s with receiverRegistered := true } else s
  { s1 with listenerCount := s1.listenerCount + 1 }

/-- `CallLogModule.removeListeners(count)`: decrements `listenerCount`
by `count`; when the result is `≤ 0` it attempts
`unregisterReceiver(callLogUpdateReceiver)` inside a `try` and resets
`listenerCount` to `0` only after a successful unregister.  When the
receiver is not registered, `unregisterReceiver` throws
`IllegalArgumentException`, the catch only logs, and the (possibly
negative) decremented count is kept. -/
def removeListeners (s : NativeModuleState) (count : Int) : NativeModuleState :=
  let c := s.listenerCount - count
  if c ≤ 0 then
    if s.receiverRegistered then
      { listenerCount := 0, receiverRegistered := false }
    else
      { s with listenerCount := c }
  else
    { s with listenerCount := c }

/-- The JS-side view of the event channel: the subscriptions currently
held by the `NativeEventEmitter` registry (identified by subscription id)
together with the native module state. -/
structure JSState where
  emitterListeners : List Nat
  native : NativeModuleState
deriving Repr, DecidableEq

/-- `subscribeToCallUpdates` from `src/CallLogModule.ts`: calls
`CallLogModule.addListener('CallLogUpdated')` and adds an emitter
subscription for the callback. -/
def subscribeCall (id : Nat) (s : JSState) : JSState :=
  { emitterListeners := s.emitterListeners ++ [id], native := addListener s.native }

/-- One invocation of the unsubscribe closure returned by
`subscribeToCallUpdates`: `listener.remove()` (idempotent on the emitter
registry — removing an already-removed subscription does nothing)
followed by `CallLogModule.removeListeners(1)` (which decrements the
native count unconditionally). -/
def unsubscribeCall (id : Nat) (s : JSState) : JSState :=
  { emitterListeners := s.emitterListeners.erase id,
    native := removeListeners s.native 1 }

/-! Helper lemmas about the JS delivery handler. -/

/-- Delivering an event whose `(timestamp, number)` pair already occurs in
`previousLogs` invokes no handler and leaves `previousLogs` unchanged. -/
lemma processCallLogEntry_dup (prev : List CallLogEntry) (n : String) (t d ts : Int)
    (h : ∃ log ∈ prev, log.timestamp = ts ∧ log.number = n) :
    processCallLogEntry prev ⟨some n, some t, some d, some ts⟩ = (prev, none) := by
  have hany : prev.any (fun log => log.timestamp == ts && log.number == n) = true := by
    rcases h with ⟨log, hmem, h1, h2⟩
    simp only [List.any_eq_true, Bool.and_eq_true, beq_iff_eq]
    exact ⟨log, hmem, h1, h2⟩
  simp [processCallLogEntry, hany]

/-- Case analysis on one step of `processCallLogEntry`: either nothing is
delivered and the record is unchanged, or the event is well-formed with a
fresh identity, the record grows by exactly that identity, and the
delivered call carries the event's number and timestamp. -/
lemma processCallLogEntry_cases (prev : List CallLogEntry) (ev : RawEvent) :
    processCallLogEntry prev ev = (prev, none) ∨
    ∃ n t d ts,
      ev = ⟨some n, some t, some d, some ts⟩ ∧
      (¬ ∃ log ∈ prev, log.timestamp = ts ∧ log.number = n) ∧
      ∃ a, processCallLogEntry prev ev
            = (prev ++ [⟨n, t, d, ts⟩], some a) ∧ a.number = n ∧ a.timestamp = ts := by
  rcases ev with ⟨(_ | n), (_ | t), (_ | d), (_ | ts)⟩
  case some.some.some.some =>
    by_cases hdup : ∃ log ∈ prev, log.timestamp = ts ∧ log.number = n
    · exact Or.inl (processCallLogEntry_dup prev n t d ts hdup)
    · right
      refine ⟨n, t, d, ts, rfl, hdup, ?_⟩
      have hany : prev.any (fun log => log.timestamp == ts && log.number == n) = false := by
        simp only [List.any_eq_false, Bool.and_eq_true, beq_iff_eq, not_and]
        intro log hmem h1
        exact fun h2 => hdup ⟨log, hmem, h1, h2⟩
      refine ⟨{ type := if t = 1 then (if d > 0 then .incoming else .missed)
                        else if t = 2 then .outgoing
                        else if t = 3 then .missed
                        else if t = 5 then .rejected
                        else .unknown,
                number := n, duration := d, timestamp := ts }, ?_, rfl, rfl⟩
      simp [processCallLogEntry, hany, analyzeCallLogEntry]
  all_goals exact Or.inl rfl

/-- Membership of an identity key in the record, phrased as the
existential used by the dedup check. -/
lemma key_mem_iff (prev : List CallLogEntry) (n : String) (ts : Int) :
    (n, ts) ∈ prev.map entryKey ↔ ∃ log ∈ prev, log.timestamp = ts ∧ log.number = n := by
  simp only [List.mem_map, entryKey, Prod.mk.injEq]
  constructor
  · rintro ⟨log, hmem, h1, h2⟩
    exact ⟨log, hmem, h2, h1⟩
  · rintro ⟨log, hmem, h1, h2⟩
    exact ⟨log, hmem, h2, h1⟩

/-- Invariant of the folded handler: the delivered calls have pairwise
distinct identity keys, and none of their keys was already in the record
at the start. -/
lemma processAll_keys (evs : List RawEvent) :
    ∀ prev : List CallLogEntry,
      ((processAll prev evs).2.map callKey).Nodup ∧
      ∀ a ∈ (processAll prev evs).2, callKey a ∉ prev.map entryKey := by
  induction evs with
  | nil =>
    intro prev
    simp [processAll]
  | cons ev rest ih =>
    intro prev
    rcases processCallLogEntry_cases prev ev with hnone | ⟨n, t, d, ts, _, hdup, a, heq, han, hat⟩
    · simpa [processAll, hnone] using ih prev
    · obtain ⟨ihnodup, ihnotin⟩ := ih (prev ++ [⟨n, t, d, ts⟩])
      have hkey : callKey a = (n, ts) := by
        simp [callKey, han, hat]
      have hmemkey : (n, ts) ∈ (prev ++ [(⟨n, t, d, ts⟩ : CallLogEntry)]).map entryKey := by
        simp [entryKey]
      constructor
      · simp only [processAll, heq, Option.toList_some, List.map_append, List.map_cons,
          List.map_nil, List.singleton_append, List.nodup_cons]
        refine ⟨?_, ihnodup⟩
        intro hmem
        rcases List.mem_map.mp hmem with ⟨b, hb, hbkey⟩
        have := ihnotin b hb
        rw [hbkey, hkey] at this
        exact this hmemkey
      · intro b hb
        simp only [processAll, heq, Option.toList_some, List.singleton_append,
          List.mem_cons] at hb
        rcases hb with hb | hb
        · subst hb
          rw [hkey, key_mem_iff]
          exact hdup
        · intro hmem
          exact ihnotin b hb (by simpa using Or.inl hmem)

/-- One lemma recording the other service variant's behaviour: its catch
branches rethrow, so a failing seeding read propagates the error instead
of yielding a cursor. -/
lemma seedLastTimestampStrict_error :
    seedLastTimestampStrict (.error ()) = .error () := rfl

/-! Claim theorems. -/

/-- C1: for every call-log entry, `analyzeCallLogEntry` returns exactly
one outcome determined by `(rawTypeCode, durationSeconds)`: type code 1
yields Incoming when the duration is positive and Missed otherwise, code
2 yields Outgoing regardless of duration, code 3 Missed, code 5 Rejected,
and every other integer code Unknown — i.e. the classifier's outcome
coincides with the spec-side mapping `classifySpec` on the entry's type
and duration. -/
theorem c1_classifier_outcome (entry : CallLogEntry) :
    (analyzeCallLogEntry entry).map AnalyzedCall.type
      = some (classifySpec entry.type entry.duration) := by
  simp [analyzeCallLogEntry, classifySpec]

/-- Witness for C1 at a concrete entry. -/
theorem c1_classifier_outcome_witness :
    (analyzeCallLogEntry ⟨"555", 1, 0, 10⟩).map AnalyzedCall.type
      = some (classifySpec 1 0) :=
  c1_classifier_outcome ⟨"555", 1, 0, 10⟩

/-- C2: on a poll tick, the change-detection step reports the present
latest entry as new and sets the cursor to its timestamp exactly when the
timestamp is strictly greater than the cursor; on an equal or smaller
timestamp, or when no entry is present, it reports no change and leaves
the cursor unchanged. -/
theorem c2_change_detection (c : Int) (b : Bool) (e : CallLogEntry) :
    (e.timestamp > c →
      timerTaskRun ⟨c, b⟩ (.ok (some e)) = (⟨e.timestamp, b⟩, some e)) ∧
    (¬ e.timestamp > c →
      timerTaskRun ⟨c, b⟩ (.ok (some e)) = (⟨c, b⟩, none)) ∧
    timerTaskRun ⟨c, b⟩ (.ok none) = (⟨c, b⟩, none) := by
  refine ⟨fun h => ?_, fun h => ?_, rfl⟩ <;> simp [timerTaskRun, h]

/-- Witness for C2: cursor 1000 with a timestamp-1500 entry advances and
reports it; cursor 1000 with a timestamp-1000 entry is no change. -/
theorem c2_change_detection_witness :
    timerTaskRun ⟨1000, false⟩ (.ok (some ⟨"w", 1, 5, 1500⟩))
        = (⟨1500, false⟩, some ⟨"w", 1, 5, 1500⟩) ∧
    timerTaskRun ⟨1000, false⟩ (.ok (some ⟨"w", 1, 5, 1000⟩))
        = (⟨1000, false⟩, none) :=
  ⟨(c2_change_detection 1000 false ⟨"w", 1, 5, 1500⟩).1 (by decide),
   (c2_change_detection 1000 false ⟨"w", 1, 5, 1000⟩).2.1 (by decide)⟩

/-- C3: during one process lifetime, each identity pair
`(phoneNumber, occurredAtEpochMillis)` is forwarded to subscribers at
most once: delivering an event whose pair was already delivered invokes
no handler and leaves the delivered-identity record unchanged, and over
every event sequence the delivered calls have pairwise distinct identity
keys. -/
theorem c3_at_most_once :
    (∀ (prev : List CallLogEntry) (n : String) (t d ts : Int),
        (∃ log ∈ prev, log.timestamp = ts ∧ log.number = n) →
        processCallLogEntry prev ⟨some n, some t, some d, some ts⟩ = (prev, none)) ∧
    ∀ evs : List RawEvent, ((processAll [] evs).2.map callKey).Nodup :=
  ⟨processCallLogEntry_dup, fun evs => (processAll_keys evs []).1⟩

/-- Witness for C3: re-delivering the identity `("a", 100)` on a record
already holding it invokes no handler and leaves the record unchanged. -/
theorem c3_at_most_once_witness :
    processCallLogEntry [⟨"a", 1, 5, 100⟩] ⟨some "a", some 1, some 5, some 100⟩
      = ([⟨"a", 1, 5, 100⟩], none) :=
  c3_at_most_once.1 [⟨"a", 1, 5, 100⟩] "a" 1 5 100 (by decide)

/-- C4: the watcher cursor `lastTimestamp` is monotonically
non-decreasing across every poll tick, for every read outcome (failing
read, empty log, or any latest entry). -/
theorem c4_cursor_monotone (s : ServiceState) (r : Except Unit (Option CallLogEntry)) :
    s.lastTimestamp ≤ (timerTaskRun s r).1.lastTimestamp := by
  rcases r with _ | (_ | it)
  · simp [timerTaskRun]
  · simp [timerTaskRun]
  · by_cases h : it.timestamp > s.lastTimestamp
    · simp only [timerTaskRun, if_pos h]
      exact le_of_lt h
    · simp [timerTaskRun, h]

/-- Witness for C4 at a concrete state and tick. -/
theorem c4_cursor_monotone_witness :
    (⟨3, false⟩ : ServiceState).lastTimestamp
      ≤ (timerTaskRun ⟨3, false⟩ (.ok (some ⟨"w", 2, 0, 9⟩))).1.lastTimestamp :=
  c4_cursor_monotone ⟨3, false⟩ (.ok (some ⟨"w", 2, 0, 9⟩))

/-- C5: when the cursor-seeding read at startup fails, the cursor is
initialized to `0`, startup does not abort (the timer is scheduled, the
watcher runs), and the very next poll treats the most recent existing
entry (any entry with a positive epoch timestamp) as new. -/
theorem c5_seed_failure (e : CallLogEntry) (h : 0 < e.timestamp) :
    onCreateState (.error ()) = ⟨0, false⟩ ∧
    timerTaskRun (onCreateState (.error ())) (.ok (some e))
      = (⟨e.timestamp, false⟩, some e) := by
  refine ⟨rfl, ?_⟩
  simp [timerTaskRun, onCreateState, seedLastTimestamp, h]

/-- Witness for C5 at a concrete entry with timestamp 5000. -/
theorem c5_seed_failure_witness :
    onCreateState (.error ()) = ⟨0, false⟩ ∧
    timerTaskRun (onCreateState (.error ())) (.ok (some ⟨"w", 1, 5, 5000⟩))
      = (⟨5000, false⟩, some ⟨"w", 1, 5, 5000⟩) :=
  c5_seed_failure ⟨"w", 1, 5, 5000⟩ (by decide)

/-- C6 counterexample: after `stop()` (modelled by `onDestroy`, which
sets the cancelled flag), an in-flight poll that completes with a newer
entry still broadcasts it — the tick body has no stopped-check before
forwarding, so the claim that the in-flight result is discarded is false
at this concrete input. -/
theorem c6_stop_discard_cex :
    (timerTaskRun (onDestroy ⟨1000, false⟩) (.ok (some ⟨"x", 1, 5, 2000⟩))).2 ≠ none := by
  decide

/-- C6 amended: `stop()` never throws and sets the cancelled flag, but an
in-flight tick's delivery is independent of that flag: the broadcast a
tick sends is the same whether or not the watcher has been stopped. -/
theorem c6_stop_amended (c : Int) (b : Bool) (r : Except Unit (Option CallLogEntry)) :
    (timerTaskRun ⟨c, true⟩ r).2 = (timerTaskRun ⟨c, b⟩ r).2 ∧
    onDestroy ⟨c, b⟩ = ⟨c, true⟩ := by
  refine ⟨?_, rfl⟩
  rcases r with _ | (_ | it)
  · rfl
  · rfl
  · by_cases h : it.timestamp > c
    · simp [timerTaskRun, h]
    · simp [timerTaskRun, h]

/-- Witness for the amended C6 at a concrete tick. -/
theorem c6_stop_amended_witness :
    (timerTaskRun ⟨1000, true⟩ (.ok (some ⟨"x", 1, 5, 2000⟩))).2
        = (timerTaskRun ⟨1000, false⟩ (.ok (some ⟨"x", 1, 5, 2000⟩))).2 ∧
    onDestroy ⟨1000, false⟩ = ⟨1000, true⟩ :=
  c6_stop_amended 1000 false (.ok (some ⟨"x", 1, 5, 2000⟩))

/-- C7: a poll tick whose call-log read throws is skipped: the cursor and
the cancellation flag are unchanged, nothing is broadcast, and (because
the exception is caught inside `run`, so the `TimerTask` returns
normally) the recurring schedule continues. -/
theorem c7_failed_tick_skipped (s : ServiceState) :
    timerTaskRun s (.error ()) = (s, none) := rfl

/-- Witness for C7 at a concrete state. -/
theorem c7_failed_tick_skipped_witness :
    timerTaskRun ⟨7, false⟩ (.error ()) = (⟨7, false⟩, none) :=
  c7_failed_tick_skipped ⟨7, false⟩

/-- C8: the classifier passes `phoneNumber`, `durationSeconds` and
`occurredAtEpochMillis` through unchanged from input to output; only the
outcome field is computed (and, as a pure Lean function, it has no side
effects). -/
theorem c8_passthrough (entry : CallLogEntry) :
    (analyzeCallLogEntry entry).map AnalyzedCall.number = some entry.number ∧
    (analyzeCallLogEntry entry).map AnalyzedCall.duration = some entry.duration ∧
    (analyzeCallLogEntry entry).map AnalyzedCall.timestamp = some entry.timestamp := by
  refine ⟨?_, ?_, ?_⟩ <;> simp [analyzeCallLogEntry]

/-- Witness for C8 at a concrete entry. -/
theorem c8_passthrough_witness :
    (analyzeCallLogEntry ⟨"77", 5, 0, 42⟩).map AnalyzedCall.number = some "77" ∧
    (analyzeCallLogEntry ⟨"77", 5, 0, 42⟩).map AnalyzedCall.duration = some 0 ∧
    (analyzeCallLogEntry ⟨"77", 5, 0, 42⟩).map AnalyzedCall.timestamp = some 42 :=
  c8_passthrough ⟨"77", 5, 0, 42⟩

/-- C10: although the declared return type of `analyzeCallLogEntry` is
`AnalyzedCall | null`, the null branch is unreachable: every entry,
including unknown type codes and zero or negative durations, yields a
structured result. -/
theorem c10_never_null (entry : CallLogEntry) :
    (analyzeCallLogEntry entry).isSome = true := rfl

/-- Witness for C10 at an entry with an unknown type code and a negative
duration. -/
theorem c10_never_null_witness :
    (analyzeCallLogEntry ⟨"", 99, -1, 0⟩).isSome = true :=
  c10_never_null ⟨"", 99, -1, 0⟩

/-- C9 counterexample: starting from a fresh module, one subscription
followed by two invocations of the returned unsubscribe closure leaves
the native `listenerCount` at `-1`, not the `0` it holds after one
invocation — the second call is not a no-op. -/
theorem c9_double_unsub_cex :
    (unsubscribeCall 0 (unsubscribeCall 0 (subscribeCall 0 ⟨[], ⟨0, false⟩⟩))).native.listenerCount
      ≠ (unsubscribeCall 0 (subscribeCall 0 ⟨[], ⟨0, false⟩⟩)).native.listenerCount := by
  decide

/-- C9 amended: the unsubscribe closure removes exactly the handler it
closed over (other handlers survive), and a second invocation is a no-op
on the JS emitter registry; but it is not a no-op on the native side: in
the single-subscriber scenario the second invocation drives the native
`listenerCount` to `-1` (the unregister attempt throws, is caught, and
the count is not reset). -/
theorem c9_unsubscribe_amended (regs : List Nat) (n : NativeModuleState) (id : Nat)
    (h : regs.Nodup) :
    (unsubscribeCall id ⟨regs, n⟩).emitterListeners = regs.erase id ∧
    (∀ j ∈ regs, j ≠ id → j ∈ (unsubscribeCall id ⟨regs, n⟩).emitterListeners) ∧
    (unsubscribeCall id (unsubscribeCall id ⟨regs, n⟩)).emitterListeners
        = (unsubscribeCall id ⟨regs, n⟩).emitterListeners ∧
    (unsubscribeCall 0 (unsubscribeCall 0 (subscribeCall 0 ⟨[], ⟨0, false⟩⟩))).native.listenerCount
        = -1 := by
  refine ⟨rfl, ?_, ?_, by decide⟩
  · intro j hj hne
    simpa [unsubscribeCall] using (List.mem_erase_of_ne hne).mpr hj
  · show (regs.erase id).erase id = regs.erase id
    apply List.erase_of_not_mem
    intro hmem
    exact ((List.Nodup.mem_erase_iff h).mp hmem).1 rfl

/-- Witness for the amended C9 with one registered handler. -/
theorem c9_unsubscribe_amended_witness :
    (unsubscribeCall 5 ⟨[5], ⟨1, true⟩⟩).emitterListeners = [5].erase 5 :=
  (c9_unsubscribe_amended [5] ⟨1, true⟩ 5 (by decide)).1

end MyCallDetector
